import Mathlib

/-!
Shallow embedding of `src/honeybadger_mcp_server/server.py`
(honeybadger-mcp): an MCP tool adapter exposing two read-only query
operations (`list_faults`, `get_fault_details`) over the Honeybadger
REST API, plus the session lifecycle (`honeybadger_lifespan`).

Modelling conventions:
- JSON values are the inductive `Json`; the upstream HTTP response is
  `HttpResponse` carrying the status, the raw body text, and the result
  of parsing the body as JSON (`bodyJson : Option Json`, `none` when the
  body is not valid JSON).
- A Python function that may raise is modelled with `Except String`,
  `Except.error msg` standing for a raised exception with message `msg`.
- Query parameter dicts are association lists `List (String × ParamValue)`;
  the Python drop-`None` comprehension `{k: v for k, v in d.items() if v
  is not None}` is `dropNone`.
- The side effect of issuing the HTTP GET is recorded as the
  `HttpRequest` value (URL and params) returned alongside the result,
  and as `Event.request` entries in the lifecycle trace.
-/

/-- JSON values (the shape of Python dict/list/str/int/bool/None data). -/
inductive Json where
  | null : Json
  | bool (b : Bool) : Json
  | num (n : Int) : Json
  | str (s : String) : Json
  | arr (elems : List Json) : Json
  | obj (fields : List (String × Json)) : Json

/-- Field lookup in a JSON object; `none` on non-objects or missing keys. -/
def Json.lookupField : Json → String → Option Json
  | .obj fields, k => fields.lookup k
  | _, _ => none

/-- A query-string parameter value (Python passes strings and ints). -/
inductive ParamValue where
  | str (s : String) : ParamValue
  | int (n : Int) : ParamValue
deriving DecidableEq, Repr

/-- The upstream HTTP response to a GET request: status code, raw body
text, and the JSON parse of the body (`none` if the body is not valid
JSON). -/
structure HttpResponse where
  status : Nat
  bodyText : String
  bodyJson : Option Json

/-- `HONEYBADGER_API_BASE_URL` from server.py line 14. -/
def HONEYBADGER_API_BASE_URL : String := "https://app.honeybadger.io/v2"

/-- The Python dict comprehension `{k: v for k, v in params.items() if v
is not None}` (server.py lines 181 and 211): keep only the entries whose
value is present. -/
def dropNone (l : List (String × Option ParamValue)) : List (String × ParamValue) :=
  l.filterMap (fun kv => kv.2.map (fun v => (kv.1, v)))

/-- The outgoing HTTP GET request issued by `make_request`: the URL
string built by the adapter (before any processing by the HTTP client
library) and the query parameters. -/
structure HttpRequest where
  url : String
  params : List (String × ParamValue)

/-- Message of the exception `aiohttp` raises when `response.json()` is
called on a 200 response whose body is not valid JSON; this exception
propagates out of `make_request` (modelled as `Except.error`). -/
def jsonDecodeErrorMsg : String :=
  "Attempt to decode JSON with unexpected mimetype: text/plain"

/-- `make_request` (server.py lines 130-149): builds the URL
`<base>/projects/<project_id><endpoint>`, issues the GET with `params`,
and maps the response: non-200 becomes the value
`{"error": "HTTP <status> - <body text>"}` (returned, not raised);
200 returns the JSON-parsed body, the parse failure being a raised
exception. The issued request is returned alongside the outcome. -/
def make_request (project_id endpoint : String) (params : List (String × ParamValue))
    (resp : HttpResponse) : HttpRequest × Except String Json :=
  (⟨HONEYBADGER_API_BASE_URL ++ "/projects/" ++ project_id ++ endpoint, params⟩,
    if resp.status ≠ 200 then
      Except.ok (Json.obj [("error",
        Json.str ("HTTP " ++ toString resp.status ++ " - " ++ resp.bodyText))])
    else
      match resp.bodyJson with
      | some j => Except.ok j
      | none => Except.error jsonDecodeErrorMsg)

/-- The params dict built by `list_faults` (server.py lines 172-181):
all six keys, then `None` values removed. `limit` is a non-optional
`int` so its entry is always present. -/
def list_faults_params (q : Option String)
    (created_after occurred_after occurred_before : Option Int)
    (limit : Int) (order : Option String) : List (String × ParamValue) :=
  dropNone
    [("q", q.map ParamValue.str),
     ("created_after", created_after.map ParamValue.int),
     ("occurred_after", occurred_after.map ParamValue.int),
     ("occurred_before", occurred_before.map ParamValue.int),
     ("limit", some (ParamValue.int limit)),
     ("order", order.map ParamValue.str)]

/-- `list_faults` (server.py lines 152-183): builds the params dict,
drops `None`s, and delegates to `make_request` with endpoint
`/faults`. -/
def list_faults (project_id : String) (q : Option String)
    (created_after occurred_after occurred_before : Option Int)
    (limit : Int) (order : Option String) (resp : HttpResponse) :
    HttpRequest × Except String Json :=
  make_request project_id "/faults"
    (list_faults_params q created_after occurred_after occurred_before limit order)
    resp

/-- The params dict built by `get_fault_details` (server.py lines
205-211). -/
def get_fault_details_params (created_after created_before : Option Int)
    (limit : Int) : List (String × ParamValue) :=
  dropNone
    [("created_after", created_after.map ParamValue.int),
     ("created_before", created_before.map ParamValue.int),
     ("limit", some (ParamValue.int limit))]

/-- The endpoint string `f"/faults/{fault_id}/notices"` (server.py line
213): `fault_id` is substituted verbatim by the f-string. -/
def get_fault_details_endpoint (fault_id : String) : String :=
  "/faults/" ++ fault_id ++ "/notices"

/-- `get_fault_details` (server.py lines 186-213): builds the params
dict, drops `None`s, and delegates to `make_request` with endpoint
`/faults/<fault_id>/notices`. -/
def get_fault_details (project_id fault_id : String)
    (created_after created_before : Option Int) (limit : Int)
    (resp : HttpResponse) : HttpRequest × Except String Json :=
  make_request project_id (get_fault_details_endpoint fault_id)
    (get_fault_details_params created_after created_before limit)
    resp

/-- Arguments of a `list_faults` tool call as they arrive at `call_tool`
(server.py line 242): each optional key either absent (`none`) or
present. -/
structure ListFaultsArgs where
  q : Option String
  created_after : Option Int
  occurred_after : Option Int
  occurred_before : Option Int
  limit : Option Int
  order : Option String

/-- The validated `ListFaultsRequest` pydantic model (server.py lines
58-64): `limit : int = 25`, `order : Literal["recent", "frequent"] =
"frequent"`, the rest optional with default `None`. -/
structure ListFaultsRequest where
  q : Option String
  created_after : Option Int
  occurred_after : Option Int
  occurred_before : Option Int
  limit : Int
  order : String

/-- Pydantic validation `ListFaultsRequest(**arguments)` (server.py line
242): absent fields take their declared defaults (`limit` 25, `order`
"frequent"); a supplied `order` outside the `Literal` raises a
ValidationError. The `maximum: 25` on `limit` lives only in
`json_schema_extra` metadata, so pydantic does not enforce it and any
integer is accepted. -/
def ListFaultsRequest.validate (args : ListFaultsArgs) :
    Except String ListFaultsRequest :=
  let order := args.order.getD "frequent"
  if order = "recent" ∨ order = "frequent" then
    Except.ok
      ⟨args.q, args.created_after, args.occurred_after, args.occurred_before,
        args.limit.getD 25, order⟩
  else
    Except.error "1 validation error for ListFaultsRequest: order"

/-- Arguments of a `get_fault_details` tool call as they arrive at
`call_tool` (server.py lines 253-260). `fault_id = none` models the
`"fault_id"` key being absent from the arguments dict. No pydantic
validation happens on this branch: `call_tool` reads the dict
directly. -/
structure GetFaultDetailsArgs where
  fault_id : Option String
  created_after : Option Int
  created_before : Option Int
  limit : Option Int

/-- Outcome of one `call_tool` invocation: the GET requests issued
(in order) and the result object whose `str()` becomes the returned
`TextContent` text. -/
structure ToolOutcome where
  requests : List HttpRequest
  result : Json

/-- The `call_tool` branch for `list_faults` (server.py lines 241-251,
265-268): validate the arguments through `ListFaultsRequest`, call
`list_faults` with the model's fields, and return the result; any
exception (validation or JSON decode) is caught by the generic handler
and becomes `{"error": str(e)}` with no further requests. -/
def call_tool_list_faults (project_id : String) (args : ListFaultsArgs)
    (resp : HttpResponse) : ToolOutcome :=
  match ListFaultsRequest.validate args with
  | Except.error e => ⟨[], Json.obj [("error", Json.str e)]⟩
  | Except.ok req =>
    let (request, result) :=
      list_faults project_id req.q req.created_after req.occurred_after
        req.occurred_before req.limit (some req.order) resp
    match result with
    | Except.ok j => ⟨[request], j⟩
    | Except.error e => ⟨[request], Json.obj [("error", Json.str e)]⟩

/-- Message of the `KeyError` raised by `arguments["fault_id"]`
(server.py line 256) when the key is absent, as caught and stringified
by the generic handler. -/
def keyErrorFaultIdMsg : String := "'fault_id'"

/-- The `call_tool` branch for `get_fault_details` (server.py lines
253-260, 265-268): reads `arguments["fault_id"]` directly (a missing
key raises `KeyError`, caught into an error result before any request);
otherwise calls `get_fault_details` with `arguments.get` defaults
(`limit` default 1). There is no validation of the fault_id value
itself: the empty string is passed through to the request. -/
def call_tool_get_fault_details (project_id : String)
    (args : GetFaultDetailsArgs) (resp : HttpResponse) : ToolOutcome :=
  match args.fault_id with
  | none => ⟨[], Json.obj [("error", Json.str keyErrorFaultIdMsg)]⟩
  | some fid =>
    let (request, result) :=
      get_fault_details project_id fid args.created_after args.created_before
        (args.limit.getD 1) resp
    match result with
    | Except.ok j => ⟨[request], j⟩
    | Except.error e => ⟨[request], Json.obj [("error", Json.str e)]⟩

/-- Observable resource events of the session lifecycle. -/
inductive Event where
  | openClient : Event
  | closeClient : Event
  | request (url : String) : Event
deriving DecidableEq, Repr

/-- `HoneybadgerContext` (server.py lines 19-25) minus the live client
handle, which the trace models as events. -/
structure HoneybadgerContext where
  project_id : String
  api_key : String

/-- `honeybadger_lifespan` (server.py lines 28-54): raises `ValueError`
if `api_key` or `project_id` is empty (before opening anything);
otherwise opens the HTTP client, runs the body with the context and —
by the `try`/`finally` — closes the client exactly after the body,
whether the body returned normally or raised. The body is a function
from the context to its outcome plus the events it emits. -/
def honeybadger_lifespan {A : Type} (project_id api_key : String)
    (body : HoneybadgerContext → Except String A × List Event) :
    Except String A × List Event :=
  if api_key = "" then
    (Except.error "Honeybadger API key is required", [])
  else if project_id = "" then
    (Except.error "Honeybadger Project ID is required", [])
  else
    let (r, evs) := body ⟨project_id, api_key⟩
    (r, Event.openClient :: evs ++ [Event.closeClient])

/-! ## Shared helper lemmas and concrete responses -/

/-- A 200 response whose body is the JSON object `\x7b"results": []\x7d`. -/
def resp200results : HttpResponse :=
  ⟨200, "\x7b\"results\":[]\x7d", some (Json.obj [("results", Json.arr [])])⟩

/-- Exhaustive outcome analysis of `make_request`: non-200 yields the
formatted error object; 200 with parseable body yields the payload;
200 with unparseable body raises. -/
theorem make_request_outcome (pid ep : String) (ps : List (String × ParamValue))
    (resp : HttpResponse) :
    (resp.status ≠ 200 ∧ (make_request pid ep ps resp).2 =
        Except.ok (Json.obj [("error", Json.str
          ("HTTP " ++ toString resp.status ++ " - " ++ resp.bodyText))]))
    ∨ (resp.status = 200 ∧ ∃ j, resp.bodyJson = some j ∧
        (make_request pid ep ps resp).2 = Except.ok j)
    ∨ (resp.status = 200 ∧ resp.bodyJson = none ∧
        (make_request pid ep ps resp).2 = Except.error jsonDecodeErrorMsg) := by
  by_cases h : resp.status = 200
  · cases hj : resp.bodyJson with
    | none => exact Or.inr (Or.inr ⟨h, rfl, by simp [make_request, h, hj]⟩)
    | some j => exact Or.inr (Or.inl ⟨h, j, rfl, by simp [make_request, h, hj]⟩)
  · exact Or.inl ⟨h, by simp [make_request, h]⟩

/-- The requests issued by the `get_fault_details` branch of `call_tool`
when the `fault_id` key is present: exactly the one GET built by
`get_fault_details` with `limit` defaulted to 1 when absent. -/
theorem call_tool_get_requests (pid : String) (args : GetFaultDetailsArgs)
    (fid : String) (resp : HttpResponse) (h : args.fault_id = some fid) :
    (call_tool_get_fault_details pid args resp).requests
      = [(get_fault_details pid fid args.created_after args.created_before
            (args.limit.getD 1) resp).1] := by
  unfold call_tool_get_fault_details
  rw [h]
  rcases make_request_outcome pid (get_fault_details_endpoint fid)
      (get_fault_details_params args.created_after args.created_before
        (args.limit.getD 1)) resp with ⟨_, h2⟩ | ⟨_, j, _, h2⟩ | ⟨_, _, h2⟩ <;>
    simp [get_fault_details, h2]

/-! ## C3 -/

/-- C3: for every non-200 upstream response with body text b, the
request builder returns (rather than raising) the error value
`\x7b"error": "HTTP <status> - <b>"\x7d`; in particular, via the
`get_fault_details` tool branch, status 404 with body "Not Found" yields
`\x7b"error": "HTTP 404 - Not Found"\x7d`. -/
theorem make_request_non200_error_result :
    (∀ (pid ep : String) (ps : List (String × ParamValue)) (resp : HttpResponse),
      resp.status ≠ 200 →
      (make_request pid ep ps resp).2 =
        Except.ok (Json.obj [("error", Json.str
          ("HTTP " ++ toString resp.status ++ " - " ++ resp.bodyText))]))
    ∧ (call_tool_get_fault_details "p" ⟨some "x", none, none, none⟩
        ⟨404, "Not Found", none⟩).result
      = Json.obj [("error", Json.str "HTTP 404 - Not Found")] := by
  constructor
  · intro pid ep ps resp h
    simp [make_request, h]
  · rfl

/-- Witness for C3 at status 500, body "oops". -/
theorem make_request_non200_error_result_witness :
    (make_request "p" "/faults" [] ⟨500, "oops", none⟩).2 =
      Except.ok (Json.obj [("error", Json.str "HTTP 500 - oops")]) :=
  make_request_non200_error_result.1 "p" "/faults" [] ⟨500, "oops", none⟩ (by decide)

/-! ## C4 -/

/-- C4: an optional filter key appears in the constructed parameter set
exactly when its value is present — a field left unset is omitted
entirely, for every optional filter of both operations. -/
theorem optional_filters_omitted_when_unset :
    ∀ (q : Option String) (ca oa ob : Option Int) (limit : Int)
      (order : Option String) (ca2 cb2 : Option Int) (limit2 : Int),
      (("q" ∈ (list_faults_params q ca oa ob limit order).map Prod.fst)
        ↔ q.isSome)
      ∧ (("created_after" ∈ (list_faults_params q ca oa ob limit order).map Prod.fst)
        ↔ ca.isSome)
      ∧ (("occurred_after" ∈ (list_faults_params q ca oa ob limit order).map Prod.fst)
        ↔ oa.isSome)
      ∧ (("occurred_before" ∈ (list_faults_params q ca oa ob limit order).map Prod.fst)
        ↔ ob.isSome)
      ∧ (("created_after" ∈ (get_fault_details_params ca2 cb2 limit2).map Prod.fst)
        ↔ ca2.isSome)
      ∧ (("created_before" ∈ (get_fault_details_params ca2 cb2 limit2).map Prod.fst)
        ↔ cb2.isSome) := by
  intro q ca oa ob limit order ca2 cb2 limit2
  cases q <;> cases ca <;> cases oa <;> cases ob <;> cases order <;>
    cases ca2 <;> cases cb2 <;>
    simp [list_faults_params, get_fault_details_params, dropNone]

/-! ## C7 -/

/-- C7: when the caller leaves `limit` unset, the validated
`ListFaultsRequest` carries 25 and the `get_fault_details` branch passes
1; and neither params builder re-clamps: any supplied limit — including
values above 25 — is forwarded to the query parameters unchanged. -/
theorem limit_defaults_and_not_reclamped :
    (∀ args : ListFaultsArgs, args.limit = none →
      ∀ req, ListFaultsRequest.validate args = Except.ok req → req.limit = 25)
    ∧ (∀ (pid : String) (args : GetFaultDetailsArgs) (fid : String)
        (resp : HttpResponse), args.fault_id = some fid → args.limit = none →
        (call_tool_get_fault_details pid args resp).requests.map HttpRequest.params
          = [get_fault_details_params args.created_after args.created_before 1])
    ∧ (∀ (q : Option String) (ca oa ob : Option Int) (limit : Int)
        (order : Option String),
        (list_faults_params q ca oa ob limit order).lookup "limit"
          = some (ParamValue.int limit))
    ∧ (∀ (ca cb : Option Int) (limit : Int),
        (get_fault_details_params ca cb limit).lookup "limit"
          = some (ParamValue.int limit)) := by
  refine ⟨?_, ?_, ?_, ?_⟩
  · intro args hl req hv
    simp only [ListFaultsRequest.validate] at hv
    split at hv
    · cases hv
      simp [hl]
    · cases hv
  · intro pid args fid resp hf hl
    rw [call_tool_get_requests pid args fid resp hf, hl]
    simp [get_fault_details, make_request]
  · intro q ca oa ob limit order
    cases q <;> cases ca <;> cases oa <;> cases ob <;>
      simp [list_faults_params, dropNone, List.lookup]
  · intro ca cb limit
    cases ca <;> cases cb <;>
      simp [get_fault_details_params, dropNone, List.lookup]

/-- Witness for C7: a `list_faults` call with every argument absent
validates to limit 25; a `get_fault_details` call with fault_id "x" and
no limit sends limit 1; and a supplied limit of 100 (above the
advertised maximum of 25) is forwarded unchanged by both builders. -/
theorem limit_defaults_and_not_reclamped_witness :
    (ListFaultsRequest.mk none none none none 25 "frequent").limit = 25
    ∧ (call_tool_get_fault_details "p" ⟨some "x", none, none, none⟩
        ⟨200, "[]", some (Json.arr [])⟩).requests.map HttpRequest.params
      = [get_fault_details_params none none 1]
    ∧ (list_faults_params none none none none 100 (some "frequent")).lookup "limit"
      = some (ParamValue.int 100)
    ∧ (get_fault_details_params none none 100).lookup "limit"
      = some (ParamValue.int 100) := by
  refine ⟨?_, ?_, ?_, ?_⟩
  · exact limit_defaults_and_not_reclamped.1
      ⟨none, none, none, none, none, none⟩ rfl
      ⟨none, none, none, none, 25, "frequent"⟩ rfl
  · exact limit_defaults_and_not_reclamped.2.1 "p" ⟨some "x", none, none, none⟩
      "x" ⟨200, "[]", some (Json.arr [])⟩ rfl rfl
  · exact limit_defaults_and_not_reclamped.2.2.1 none none none none 100
      (some "frequent")
  · exact limit_defaults_and_not_reclamped.2.2.2 none none 100

/-! ## C10 -/

/-- C10: every `list_faults` tool call sends both "limit" and "order" in
the query parameters — these fields of the validated request are
non-optional, so the drop-None filter never removes them — and when the
caller left them unset the values sent are the defaults 25 and
"frequent". -/
theorem list_faults_always_sends_limit_and_order :
    ∀ (args : ListFaultsArgs) (req : ListFaultsRequest),
      ListFaultsRequest.validate args = Except.ok req →
      ((list_faults_params req.q req.created_after req.occurred_after
          req.occurred_before req.limit (some req.order)).lookup "limit"
        = some (ParamValue.int req.limit))
      ∧ ((list_faults_params req.q req.created_after req.occurred_after
          req.occurred_before req.limit (some req.order)).lookup "order"
        = some (ParamValue.str req.order))
      ∧ (args.limit = none → req.limit = 25)
      ∧ (args.order = none → req.order = "frequent") := by
  intro args req hv
  simp only [ListFaultsRequest.validate] at hv
  split at hv
  case isFalse => cases hv
  case isTrue h =>
    cases hv
    refine ⟨?_, ?_, ?_, ?_⟩
    · cases args.q <;> cases args.created_after <;> cases args.occurred_after <;>
        cases args.occurred_before <;>
        simp [list_faults_params, dropNone, List.lookup]
    · cases args.q <;> cases args.created_after <;> cases args.occurred_after <;>
        cases args.occurred_before <;>
        simp [list_faults_params, dropNone, List.lookup]
    · intro hl; simp [hl]
    · intro ho; simp [ho]

/-- Witness for C10 at an argument set leaving every field unset. -/
theorem list_faults_always_sends_limit_and_order_witness :
    (list_faults_params none none none none 25 (some "frequent")).lookup "limit"
      = some (ParamValue.int 25)
    ∧ (list_faults_params none none none none 25 (some "frequent")).lookup "order"
      = some (ParamValue.str "frequent") :=
  ⟨(list_faults_always_sends_limit_and_order ⟨none, none, none, none, none, none⟩
      ⟨none, none, none, none, 25, "frequent"⟩ rfl).1,
   (list_faults_always_sends_limit_and_order ⟨none, none, none, none, none, none⟩
      ⟨none, none, none, none, 25, "frequent"⟩ rfl).2.1⟩

/-! ## C1 -/

/-- Counterexample to C1: with upstream status 200 and body
`\x7b"results":[]\x7d`, `list_faults` returns the payload
`\x7b"results": []\x7d` itself, NOT wrapped as
`\x7b"faults": \x7b"results": []\x7d\x7d`; likewise `get_fault_details`
does not wrap under "notices". -/
theorem list_faults_does_not_wrap_cex :
    ((list_faults "p" none none none none 25 (some "frequent")
        resp200results).2
      ≠ Except.ok (Json.obj [("faults", Json.obj [("results", Json.arr [])])]))
    ∧ ((get_fault_details "p" "x" none none 1 resp200results).2
      ≠ Except.ok (Json.obj [("notices", Json.obj [("results", Json.arr [])])])) := by
  constructor <;>
    · intro h
      simp [list_faults, get_fault_details, make_request, resp200results] at h

/-- C1 amended: with upstream status 200, both operations return the
JSON-parsed upstream payload directly — unwrapped (no "faults"/"notices"
key is added); in particular, for body `\x7b"results":[]\x7d` the result
is `\x7b"results": []\x7d` itself. -/
theorem success_payload_returned_unwrapped :
    ∀ (pid fid : String) (q : Option String)
      (ca oa ob ca2 cb2 : Option Int) (l1 l2 : Int) (order : Option String)
      (resp : HttpResponse) (j : Json),
      resp.status = 200 → resp.bodyJson = some j →
      (list_faults pid q ca oa ob l1 order resp).2 = Except.ok j
      ∧ (get_fault_details pid fid ca2 cb2 l2 resp).2 = Except.ok j := by
  intro pid fid q ca oa ob ca2 cb2 l1 l2 order resp j h200 hj
  constructor <;> simp [list_faults, get_fault_details, make_request, h200, hj]

/-- Witness for the amended C1 at status 200, body
`\x7b"results":[]\x7d`. -/
theorem success_payload_returned_unwrapped_witness :
    (list_faults "p" none none none none 25 (some "frequent")
        resp200results).2
      = Except.ok (Json.obj [("results", Json.arr [])])
    ∧ (get_fault_details "p" "x" none none 1 resp200results).2
      = Except.ok (Json.obj [("results", Json.arr [])]) :=
  success_payload_returned_unwrapped "p" "x" none none none none none none 25 1
    (some "frequent") resp200results (Json.obj [("results", Json.arr [])])
    rfl rfl

/-! ## C2 -/

/-- Counterexample to C2: at upstream status 200 with payload
`\x7b"results": []\x7d`, the `list_faults` tool call returns that payload
unchanged — an object containing NEITHER a "faults" key NOR an "error"
key, contradicting "never neither". -/
theorem tool_result_neither_key_cex :
    (call_tool_list_faults "p" ⟨none, none, none, none, none, none⟩
        resp200results).result.lookupField "faults" = none
    ∧ (call_tool_list_faults "p" ⟨none, none, none, none, none, none⟩
        resp200results).result.lookupField "error" = none
    ∧ (call_tool_list_faults "p" ⟨none, none, none, none, none, none⟩
        resp200results).result
      = Json.obj [("results", Json.arr [])] := by
  refine ⟨rfl, rfl, rfl⟩

/-- C2 amended: every tool call returns a JSON value that is either an
object whose single field is "error" (argument errors, non-200 upstream
statuses, and unparseable 200 bodies), or — on a 200 response with a
parseable body — the upstream payload itself, which is passed through
verbatim and need not contain a "faults"/"notices"/"error" key. -/
theorem tool_result_error_or_passthrough :
    ∀ (pid : String) (largs : ListFaultsArgs) (gargs : GetFaultDetailsArgs)
      (resp : HttpResponse),
      ((∃ msg, (call_tool_list_faults pid largs resp).result
          = Json.obj [("error", Json.str msg)])
        ∨ (resp.status = 200 ∧ ∃ j, resp.bodyJson = some j ∧
            (call_tool_list_faults pid largs resp).result = j))
      ∧ ((∃ msg, (call_tool_get_fault_details pid gargs resp).result
          = Json.obj [("error", Json.str msg)])
        ∨ (resp.status = 200 ∧ ∃ j, resp.bodyJson = some j ∧
            (call_tool_get_fault_details pid gargs resp).result = j)) := by
  intro pid largs gargs resp
  constructor
  · unfold call_tool_list_faults
    cases hv : ListFaultsRequest.validate largs with
    | error e => exact Or.inl ⟨e, rfl⟩
    | ok req =>
      rcases make_request_outcome pid "/faults"
          (list_faults_params req.q req.created_after req.occurred_after
            req.occurred_before req.limit (some req.order)) resp with
        ⟨_, h2⟩ | ⟨h200, j, hj, h2⟩ | ⟨_, _, h2⟩
      · exact Or.inl ⟨"HTTP " ++ toString resp.status ++ " - " ++ resp.bodyText,
          by simp [list_faults, h2]⟩
      · exact Or.inr ⟨h200, j, hj, by simp [list_faults, h2]⟩
      · exact Or.inl ⟨jsonDecodeErrorMsg, by simp [list_faults, h2]⟩
  · unfold call_tool_get_fault_details
    cases gargs.fault_id with
    | none => exact Or.inl ⟨keyErrorFaultIdMsg, rfl⟩
    | some fid =>
      rcases make_request_outcome pid (get_fault_details_endpoint fid)
          (get_fault_details_params gargs.created_after gargs.created_before
            (gargs.limit.getD 1)) resp with
        ⟨_, h2⟩ | ⟨h200, j, hj, h2⟩ | ⟨_, _, h2⟩
      · exact Or.inl ⟨"HTTP " ++ toString resp.status ++ " - " ++ resp.bodyText,
          by simp [get_fault_details, h2]⟩
      · exact Or.inr ⟨h200, j, hj, by simp [get_fault_details, h2]⟩
      · exact Or.inl ⟨jsonDecodeErrorMsg, by simp [get_fault_details, h2]⟩

/-! ## C5 -/

/-- Counterexample to C5: for fault_id "abc 123" the URL string the
adapter builds and hands to the HTTP client contains a raw space
character — `get_fault_details` applies no URL-path-escaping of its
own. -/
theorem fault_id_not_escaped_cex :
    ' ' ∈ ((get_fault_details "p" "abc 123" none none 1
        resp200results).1.url).data := by decide

/-- C5 amended: `get_fault_details` substitutes `fault_id` verbatim
(character for character) into `/faults/<fault_id>/notices` and performs
no URL-path-escaping itself; any escaping of the request line is left to
the underlying HTTP client library. -/
theorem fault_id_substituted_verbatim :
    ∀ (pid fid : String) (ca cb : Option Int) (limit : Int)
      (resp : HttpResponse),
      (get_fault_details pid fid ca cb limit resp).1.url
        = HONEYBADGER_API_BASE_URL ++ "/projects/" ++ pid
            ++ ("/faults/" ++ fid ++ "/notices") := by
  intro pid fid ca cb limit resp
  rfl

/-! ## C6 -/

/-- Counterexample to C6: calling the `get_fault_details` tool with
`fault_id = ""` issues exactly one outbound HTTP request (to
`.../faults//notices`) and returns the upstream payload — no validation
or request-construction error is produced. -/
theorem empty_fault_id_no_validation_cex :
    (call_tool_get_fault_details "p" ⟨some "", none, none, none⟩
        resp200results).requests.length = 1
    ∧ (call_tool_get_fault_details "p" ⟨some "", none, none, none⟩
        resp200results).result = Json.obj [("results", Json.arr [])]
    ∧ (call_tool_get_fault_details "p" ⟨some "", none, none, none⟩
        resp200results).requests.map HttpRequest.url
      = ["https://app.honeybadger.io/v2/projects/p/faults//notices"] := by
  refine ⟨rfl, rfl, rfl⟩

/-- C6 amended: an empty `fault_id` is NOT rejected — the adapter issues
the GET to the malformed path `/faults//notices`; only a missing
`fault_id` key fails (a KeyError caught by the generic handler) with
zero outbound requests. -/
theorem empty_fault_id_passed_through :
    ∀ (pid : String) (ca cb : Option Int) (l : Option Int)
      (resp : HttpResponse),
      ((call_tool_get_fault_details pid ⟨some "", ca, cb, l⟩ resp).requests.map
          HttpRequest.url
        = [HONEYBADGER_API_BASE_URL ++ "/projects/" ++ pid ++ "/faults//notices"])
      ∧ ((call_tool_get_fault_details pid ⟨none, ca, cb, l⟩ resp).requests = [])
      ∧ ((call_tool_get_fault_details pid ⟨none, ca, cb, l⟩ resp).result
        = Json.obj [("error", Json.str keyErrorFaultIdMsg)]) := by
  intro pid ca cb l resp
  refine ⟨?_, rfl, rfl⟩
  rw [call_tool_get_requests pid ⟨some "", ca, cb, l⟩ "" resp rfl]
  simp [get_fault_details, make_request, get_fault_details_endpoint,
    HONEYBADGER_API_BASE_URL, String.append_assoc]

/-! ## C8 -/

/-- Every HTTP-level error message starts with "HTTP ", while the JSON
decode exception message does not, so the two error results are never
equal for any status and body. -/
theorem httpErrorMsg_ne_jsonDecodeErrorMsg (s : Nat) (b : String) :
    "HTTP " ++ toString s ++ " - " ++ b ≠ jsonDecodeErrorMsg := by
  intro h
  have h2 : ("HTTP " ++ toString s ++ " - " ++ b).data
      = jsonDecodeErrorMsg.data := congrArg String.data h
  rw [String.data_append, String.data_append, String.data_append] at h2
  have h3 : jsonDecodeErrorMsg.data
      = 'A' :: "ttempt to decode JSON with unexpected mimetype: text/plain".data :=
    rfl
  have h4 : "HTTP ".data = 'H' :: "TTP ".data := rfl
  rw [h3, h4] at h2
  simp at h2

/-- Counterexample to C8: on a 200 response with an unparseable body,
the request builder `make_request` does NOT return an error result — the
decode failure is raised (modelled by `Except.error`) past the adapter
functions, so it is not caught at the adapter boundary as the claim
states. -/
theorem decode_failure_raised_past_adapter_cex :
    (make_request "p" "/faults" []
        ⟨200, "<html>Server Error</html>", none⟩).2
      = Except.error jsonDecodeErrorMsg := by rfl

/-- C8 amended: a 200 response with an unparseable body makes
`response.json()` raise; the exception propagates out of `make_request`
and the operations, and is converted by `call_tool`'s generic exception
handler — the invocation layer, not the adapter boundary — into an
`\x7b"error": <decode message>\x7d` result; that result is distinct from
every HTTP-level error result `\x7b"error": "HTTP <status> - <body>"\x7d`. -/
theorem decode_error_caught_by_generic_handler :
    ∀ (pid fid : String) (largs : ListFaultsArgs)
      (ca cb : Option Int) (l : Option Int) (resp : HttpResponse),
      resp.status = 200 → resp.bodyJson = none →
      ((make_request pid (get_fault_details_endpoint fid)
          (get_fault_details_params ca cb (l.getD 1)) resp).2
        = Except.error jsonDecodeErrorMsg)
      ∧ ((call_tool_get_fault_details pid ⟨some fid, ca, cb, l⟩ resp).result
        = Json.obj [("error", Json.str jsonDecodeErrorMsg)])
      ∧ (∀ req, ListFaultsRequest.validate largs = Except.ok req →
          (call_tool_list_faults pid largs resp).result
            = Json.obj [("error", Json.str jsonDecodeErrorMsg)])
      ∧ (∀ (s : Nat) (b : String),
          Json.obj [("error", Json.str ("HTTP " ++ toString s ++ " - " ++ b))]
            ≠ Json.obj [("error", Json.str jsonDecodeErrorMsg)]) := by
  intro pid fid largs ca cb l resp h200 hnone
  refine ⟨?_, ?_, ?_, ?_⟩
  · simp [make_request, h200, hnone]
  · simp [call_tool_get_fault_details, get_fault_details, make_request,
      h200, hnone]
  · intro req hv
    simp [call_tool_list_faults, hv, list_faults, make_request, h200, hnone]
  · intro s b h
    simp only [Json.obj.injEq, List.cons.injEq, Prod.mk.injEq, Json.str.injEq,
      and_true, true_and] at h
    exact httpErrorMsg_ne_jsonDecodeErrorMsg s b h

/-- Witness for the amended C8 at a 200 response with body
"<html>Server Error</html>" that does not parse as JSON. -/
theorem decode_error_caught_by_generic_handler_witness :
    (call_tool_get_fault_details "p" ⟨some "x", none, none, none⟩
        ⟨200, "<html>Server Error</html>", none⟩).result
      = Json.obj [("error", Json.str jsonDecodeErrorMsg)] :=
  (decode_error_caught_by_generic_handler "p" "x"
    ⟨none, none, none, none, none, none⟩ none none none
    ⟨200, "<html>Server Error</html>", none⟩ rfl rfl).2.1

/-! ## C9 -/

/-- C9: whenever `honeybadger_lifespan` gets past its credential checks
(and so opens the HTTP client), the trace contains the client-open event
and exactly one client-close event — for every body, whether it returns
normally or raises (`Except.error`), the `finally` closes the client
exactly once. -/
theorem lifespan_closes_client_exactly_once :
    ∀ (A : Type) (project_id api_key : String)
      (body : HoneybadgerContext → Except String A × List Event),
      project_id ≠ "" → api_key ≠ "" →
      (∀ ctx, Event.closeClient ∉ (body ctx).2) →
      Event.openClient ∈ (honeybadger_lifespan project_id api_key body).2
      ∧ (honeybadger_lifespan project_id api_key body).2.count
          Event.closeClient = 1 := by
  intro A project_id api_key body hpid hkey hbody
  unfold honeybadger_lifespan
  rw [if_neg hkey, if_neg hpid]
  have hb := hbody ⟨project_id, api_key⟩
  rcases heq : body ⟨project_id, api_key⟩ with ⟨r, evs⟩
  rw [heq] at hb
  constructor
  · simp
  · simp [List.count_cons, List.count_append,
      List.count_eq_zero.mpr hb]

/-- Witness for C9 with nonempty credentials, once with a normally
returning body and once with a raising body that issued a request
first. -/
theorem lifespan_closes_client_exactly_once_witness :
    ((honeybadger_lifespan "proj" "key"
        (fun _ => (Except.ok 0, []))).2.count Event.closeClient = 1)
    ∧ ((honeybadger_lifespan "proj" "key"
        (fun _ => ((Except.error "boom" : Except String Nat),
          [Event.request "u"]))).2.count Event.closeClient = 1) :=
  ⟨(lifespan_closes_client_exactly_once Nat "proj" "key"
      (fun _ => (Except.ok 0, [])) (by decide) (by decide)
      (fun _ => by simp)).2,
   (lifespan_closes_client_exactly_once Nat "proj" "key"
      (fun _ => (Except.error "boom", [Event.request "u"]))
      (by decide) (by decide) (fun _ => by simp)).2⟩
